import Mathlib

/-!
Shallow embedding of the flaskapp microblog core: the data model, social
graph, feed aggregation and pagination, password hashing and password-reset
tokens, translated from app/models.py and app/routes.py. Database tables are
lists of rows; the SQL queries issued by the source are translated into the
corresponding list operations (join, filter, union with duplicate removal,
order-by as a stable sort on the given key).
-/

namespace Flaskapp

/-- A row of the Post table (models.py, class Post): integer primary key,
body text, creation timestamp (modelled as a Nat tick count) and the
foreign key to the author row. -/
structure Post where
  id : Nat
  body : String
  timestamp : Nat
  user_id : Nat
  deriving DecidableEq, Repr

/-- A row of the followers association table (models.py lines 14-18):
an ordered pair of foreign keys into the user table. -/
structure FollowEdge where
  follower_id : Nat
  followed_id : Nat
  deriving DecidableEq, Repr

/-- Symbolic model of the salted digest computed by werkzeug
generate_password_hash (a pbkdf2/scrypt-class one-way function): the digest is
deterministic in the pair (salt, plaintext) and, at the symbolic level,
collision-free, so it is represented by that pair itself rather than by an
opaque bit string. -/
structure HashDigest where
  salt : Nat
  key : String
  deriving DecidableEq, Repr

/-- A stored werkzeug password hash: the salt together with the digest
(the constant method prefix of the werkzeug format is omitted). -/
structure PasswordHash where
  salt : Nat
  digest : HashDigest
  deriving DecidableEq, Repr

/-- werkzeug generate_password_hash, as called from User.set_password
(models.py line 66): derive a salted digest from a fresh salt (the salt is an
explicit argument because the embedding is pure) and the plaintext. -/
def generate_password_hash (salt : Nat) (password : String) : PasswordHash :=
  { salt := salt, digest := { salt := salt, key := password } }

/-- werkzeug check_password_hash, as called from User.check_password
(models.py line 70) on the stored column value. The column is nullable: on a
user whose password was never set the stored Python value is None and
check_password_hash raises AttributeError (None has no split method) instead
of returning False, modelled as Except.error; on a stored hash it recomputes
the digest of the supplied plaintext with the stored salt and compares,
returning a Bool and never failing. -/
def check_password_hash (pwhash : Option PasswordHash) (password : String) :
    Except String Bool :=
  match pwhash with
  | none => Except.error ("AttributeError: NoneType object has no attribute")
  | some h => Except.ok (h.digest == { salt := h.salt, key := password })

/-- A row of the user table (models.py, class User). The password_hash column
is nullable: a freshly constructed user has no hash until set_password runs. -/
structure User where
  id : Nat
  username : String
  email : String
  password_hash : Option PasswordHash
  about_me : String
  last_seen : Nat
  deriving DecidableEq, Repr

/-- User.set_password (models.py lines 64-66): store the salted hash of the
given plaintext on the user, overwriting any existing hash. -/
def set_password (u : User) (salt : Nat) (password : String) : User :=
  { u with password_hash := some (generate_password_hash salt password) }

/-- User.check_password (models.py lines 68-70): compare the stored hash with
the supplied plaintext via check_password_hash. -/
def check_password (u : User) (password : String) : Except String Bool :=
  check_password_hash u.password_hash password

/-- The database state: the user table, the post table and the followers
association table. -/
structure DB where
  users : List User
  posts : List Post
  followers : List FollowEdge
  deriving Repr

/-- User.is_following (models.py lines 104-106): the rows of the association
table reachable through the followed relationship of selfId (follower_id =
selfId) are filtered by followed_id = otherId and counted; true iff the count
is positive. -/
def is_following (db : DB) (selfId otherId : Nat) : Bool :=
  0 < (db.followers.filter
        (fun e => e.follower_id == selfId && e.followed_id == otherId)).length

/-- The number of association rows for the ordered pair (a, b); is_following
is exactly the test that this count is positive. -/
def edge_count (db : DB) (a b : Nat) : Nat :=
  (db.followers.filter
    (fun e => e.follower_id == a && e.followed_id == b)).length

/-- User.follow (models.py lines 94-97): a no-op when is_following already
holds, otherwise insert the association row. -/
def follow (db : DB) (selfId otherId : Nat) : DB :=
  if is_following db selfId otherId then db
  else { db with followers := db.followers ++ [⟨selfId, otherId⟩] }

/-- User.unfollow (models.py lines 99-102): a no-op when is_following fails,
otherwise delete the association rows linking selfId to otherId. -/
def unfollow (db : DB) (selfId otherId : Nat) : DB :=
  if is_following db selfId otherId then
    let kept := db.followers.filter
      (fun e => !(e.follower_id == selfId && e.followed_id == otherId))
    { db with followers := kept }
  else db

/-- The followed dynamic relationship (models.py lines 42-55) read off the
association table: ids of the users followed by selfId. -/
def followed_by (db : DB) (selfId : Nat) : List Nat :=
  (db.followers.filter (fun e => e.follower_id == selfId)).map
    (fun e => e.followed_id)

/-- The followers backref (models.py line 51) read off the association table:
ids of the users following otherId. -/
def followers_of (db : DB) (otherId : Nat) : List Nat :=
  (db.followers.filter (fun e => e.followed_id == otherId)).map
    (fun e => e.follower_id)

/-- The join in User.followed_posts (models.py lines 111-116):
Post.query.join(followers, followers.c.followed_id == Post.user_id)
filtered by followers.c.follower_id == self.id. One result row per
(post, matching association row) pair, selecting the Post entity. -/
def followedPostsJoin (db : DB) (selfId : Nat) : List Post :=
  db.posts.flatMap (fun p =>
    (db.followers.filter
        (fun e => e.followed_id == p.user_id && e.follower_id == selfId)).map
      (fun _ => p))

/-- Post.query.filter_by(user_id=self.id) (models.py line 118): the posts
authored by selfId. -/
def my_posts (db : DB) (selfId : Nat) : List Post :=
  db.posts.filter (fun p => p.user_id == selfId)

/-- SQL UNION of two post queries: concatenation with duplicate rows removed
(UNION, unlike UNION ALL, deduplicates the combined result set). -/
def sqlUnion (xs ys : List Post) : List Post :=
  (xs ++ ys).dedup

/-- The sort key of order_by(Post.timestamp.desc()): a precedes b iff the
timestamp of b is at most the timestamp of a. The source sorts on this single
key; SQL guarantees nothing about the relative order of rows with equal keys,
so the order-by is modelled as a stable sort on the timestamp alone. -/
def postGe (a b : Post) : Prop := b.timestamp ≤ a.timestamp

instance : DecidableRel postGe :=
  fun a b => inferInstanceAs (Decidable (b.timestamp ≤ a.timestamp))

instance : IsTotal Post postGe :=
  ⟨fun a b => (Nat.le_total b.timestamp a.timestamp).elim Or.inl Or.inr⟩

instance : IsTrans Post postGe :=
  ⟨fun _ _ _ hab hbc => Nat.le_trans hbc hab⟩

/-- order_by(Post.timestamp.desc()) applied to a query result. -/
def order_by_timestamp_desc (ps : List Post) : List Post :=
  List.insertionSort postGe ps

/-- User.followed_posts (models.py lines 108-119): the union of the joined
followed-posts query and the own-posts query, ordered by descending
timestamp. -/
def followed_posts (db : DB) (selfId : Nat) : List Post :=
  order_by_timestamp_desc
    (sqlUnion (followedPostsJoin db selfId) (my_posts db selfId))

/-- user.posts.order_by(Post.timestamp.desc()) in the profile view
(routes.py line 174): the posts of one author, ordered by descending
timestamp — the posts_by operation of the spec. -/
def posts_by (db : DB) (authorId : Nat) : List Post :=
  order_by_timestamp_desc (db.posts.filter (fun p => p.user_id == authorId))

/-- A flask_sqlalchemy Pagination object as produced by paginate(page,
per_page, error_out=False) (routes.py lines 53-55): the clamped page and
per_page, the total row count and the items of the requested window. -/
structure Paginated where
  page : Nat
  per_page : Nat
  total : Nat
  items : List Post
  deriving Repr

/-- flask_sqlalchemy paginate with error_out=False: a requested page below 1
is replaced by page 1 (not an error and not an empty page), a per_page below
1 by the default 20; items is the window of per_page rows starting at offset
(page - 1) * per_page. -/
def paginate (q : List Post) (page : Int) (per_page : Int) : Paginated :=
  let p : Nat := if page < 1 then 1 else page.toNat
  let pp : Nat := if per_page < 1 then 20 else per_page.toNat
  { page := p, per_page := pp, total := q.length,
    items := (q.drop ((p - 1) * pp)).take pp }

/-- Pagination.pages: the total number of pages, ceil(total / per_page),
and 0 for an empty result set. -/
def Paginated.pages (pg : Paginated) : Nat :=
  if pg.total = 0 then 0 else (pg.total + pg.per_page - 1) / pg.per_page

/-- Pagination.has_prev: a previous page exists iff the current page is
beyond the first. -/
def Paginated.has_prev (pg : Paginated) : Bool := 1 < pg.page

/-- Pagination.has_next: a next page exists iff rows remain beyond the
current window, i.e. the current page is below the page count. -/
def Paginated.has_next (pg : Paginated) : Bool := pg.page < pg.pages

/-- The feed of the index view (routes.py lines 52-55):
current_user.followed_posts().paginate(page, POSTS_PER_PAGE,
error_out=False) — the feed_for operation of the spec. -/
def feed_for (db : DB) (selfId : Nat) (page : Int) (per_page : Int) :
    Paginated :=
  paginate (followed_posts db selfId) page per_page

/-- Symbolic model of a PyJWT HS256 token. jwt.encode produces a token
carrying the payload (the reset_password subject id and the exp instant)
bound to the signing key; possession of the matching key stands for a valid
HMAC signature. The malformed constructor covers arbitrary strings that are
not well-formed tokens; jwt.decode rejects them. -/
inductive Token where
  | signed (reset_password : Nat) (exp : Nat) (key : String)
  | malformed (raw : String)
  deriving DecidableEq, Repr

/-- User.get_reset_password_token (models.py lines 72-77): sign the payload
with reset_password = the id of the user and exp = now + expires_in under the
process SECRET_KEY. -/
def get_reset_password_token (u : User) (key : String) (now : Nat)
    (expires_in : Nat) : Token :=
  Token.signed u.id (now + expires_in) key

/-- jwt.decode(token, SECRET_KEY, HS256) as called in
verify_reset_password_token: returns the reset_password claim iff the
signature verifies under the key and the token has not expired (PyJWT raises
ExpiredSignatureError when exp is at or before now, so success requires
now < exp); every failure — wrong key, malformed token, expired token — is
an exception, caught by the bare except of the source and turned into
none. -/
def jwt_decode (t : Token) (key : String) (now : Nat) : Option Nat :=
  match t with
  | Token.signed rp exp k => if k = key ∧ now < exp then some rp else none
  | Token.malformed _ => none

/-- User.query.get(id): primary-key lookup in the user table. -/
def getUser (db : DB) (id : Nat) : Option User :=
  db.users.find? (fun u => u.id == id)

/-- User.verify_reset_password_token (models.py lines 79-87): decode the
token (any exception yields none), then re-look the subject id up in the
user table. The embedding is a total function: no exception reaches the
caller. -/
def verify_reset_password_token (db : DB) (t : Token) (key : String)
    (now : Nat) : Option User :=
  match jwt_decode t key now with
  | none => none
  | some id => getUser db id

/-- Symbolic model of hashlib.md5(bytes).hexdigest(): a deterministic digest
of the encoded string, injective at the symbolic level (md5 collisions are
neglected, as the spec does when calling the identifier deterministic). -/
def md5_hexdigest (s : String) : String := "md5-" ++ s

/-- Python str.lower(), modelled as lower-casing every code point (this
agrees with Python on the ASCII range of the emails in play). -/
def pyLower (s : String) : String := ⟨s.data.map Char.toLower⟩

/-- User.avatar (models.py lines 89-92): the digest of the lower-cased email
(the source lower-cases but does not trim the email), interpolated into the
gravatar URL together with the size. -/
def avatar (u : User) (size : Nat) : String :=
  "https://www.gravatar.com/avatar/" ++ md5_hexdigest (pyLower u.email)
    ++ "?d=monsterid&s=" ++ toString size

/-- The ordering claimed by the spec for feed results: descending creation
timestamp, with ties between posts of equal timestamp broken by descending
post id. -/
def specTieOrder (a b : Post) : Prop :=
  b.timestamp < a.timestamp ∨ (b.timestamp = a.timestamp ∧ b.id ≤ a.id)

instance : DecidableRel specTieOrder :=
  fun a b => inferInstanceAs
    (Decidable (b.timestamp < a.timestamp ∨
      (b.timestamp = a.timestamp ∧ b.id ≤ a.id)))

/-- A concrete database in which user 1 authored two posts with identical
timestamps and follows nobody: the tie case of the feed ordering. -/
def tieDB : DB :=
  { users := [⟨1, "ann", "ann@example.com", none, "", 0⟩],
    posts := [⟨1, "first", 5, 1⟩, ⟨2, "second", 5, 1⟩],
    followers := [] }

/-- A concrete database with three candidate feed posts for user 1 (all
authored by user 1, distinct timestamps): the pagination example of the
spec with page_size 1. -/
def pagDB : DB :=
  { users := [⟨1, "ann", "ann@example.com", none, "", 0⟩],
    posts := [⟨1, "p1", 1, 1⟩, ⟨2, "p2", 2, 1⟩, ⟨3, "p3", 3, 1⟩],
    followers := [] }

/-- A concrete database in which user 1 follows themself and authored one
post: the double-counting case of the feed (the post is reached both through
the join on the follow edge and through the own-posts query). -/
def selfDB : DB :=
  { users := [⟨1, "ann", "ann@example.com", none, "", 0⟩],
    posts := [⟨1, "mine", 7, 1⟩],
    followers := [⟨1, 1⟩] }

/-- A concrete user whose email carries a leading space. -/
def uSpace : User := ⟨1, "kev", " kev@example.com", none, "", 0⟩

/-- A concrete user with the same email as uSpace up to surrounding
whitespace. -/
def uNoSpace : User := ⟨2, "kev2", "kev@example.com", none, "", 0⟩

/-- A concrete user with the email of uNoSpace in different letter case. -/
def uUpper : User := ⟨3, "kev3", "KEV@Example.COM", none, "", 0⟩

/-- A concrete user with no password hash set. -/
def uFresh : User := ⟨4, "fresh", "fresh@example.com", none, "", 0⟩

/-- A concrete database with two users and no follow edges. -/
def wDB : DB :=
  { users := [⟨1, "ann", "ann@example.com", none, "", 0⟩,
              ⟨2, "bob", "bob@example.com", none, "", 0⟩],
    posts := [⟨1, "hi", 3, 1⟩],
    followers := [] }

/-! Helper lemmas on the social graph. -/

theorem isFollowing_iff (db : DB) (a b : Nat) :
    is_following db a b = true ↔
      ∃ e ∈ db.followers, e.follower_id = a ∧ e.followed_id = b := by
  simp only [is_following, decide_eq_true_eq, List.length_pos_iff_exists_mem]
  constructor
  · rintro ⟨e, he⟩
    have := List.mem_filter.mp he
    refine ⟨e, this.1, ?_⟩
    have h2 := this.2
    simp only [Bool.and_eq_true, beq_iff_eq] at h2
    exact h2
  · rintro ⟨e, he, h1, h2⟩
    exact ⟨e, List.mem_filter.mpr ⟨he, by simp [h1, h2]⟩⟩

theorem isFollowing_follow (db : DB) (a b : Nat) :
    is_following (follow db a b) a b = true := by
  unfold follow
  cases h : is_following db a b with
  | true => simpa using h
  | false =>
    simp only [Bool.false_eq_true, if_false]
    rw [isFollowing_iff]
    exact ⟨⟨a, b⟩, by simp, rfl, rfl⟩

theorem followers_follow (db : DB) (a b : Nat) :
    (follow db a b).followers = db.followers ∨
      (follow db a b).followers = db.followers ++ [⟨a, b⟩] := by
  unfold follow
  split
  · exact Or.inl rfl
  · exact Or.inr rfl

theorem mem_followed_by (db : DB) (a x : Nat) :
    x ∈ followed_by db a ↔
      ∃ e ∈ db.followers, e.follower_id = a ∧ e.followed_id = x := by
  simp only [followed_by, List.mem_map, List.mem_filter, beq_iff_eq]
  constructor
  · rintro ⟨e, ⟨he, h1⟩, h2⟩
    exact ⟨e, he, h1, h2⟩
  · rintro ⟨e, he, h1, h2⟩
    exact ⟨e, ⟨he, h1⟩, h2⟩

theorem mem_followers_of (db : DB) (b x : Nat) :
    x ∈ followers_of db b ↔
      ∃ e ∈ db.followers, e.follower_id = x ∧ e.followed_id = b := by
  simp only [followers_of, List.mem_map, List.mem_filter, beq_iff_eq]
  constructor
  · rintro ⟨e, ⟨he, h1⟩, h2⟩
    exact ⟨e, he, h2, h1⟩
  · rintro ⟨e, he, h1, h2⟩
    exact ⟨e, ⟨he, h2⟩, h1⟩

theorem isFollowing_unfollow (db : DB) (a b : Nat)
    (h : is_following db a b = true) :
    (unfollow db a b).followers = db.followers.filter
      (fun e => !(e.follower_id == a && e.followed_id == b)) := by
  unfold unfollow
  simp [h]

theorem follow_of_isFollowing (db : DB) (a b : Nat)
    (h : is_following db a b = true) : follow db a b = db := by
  simp [follow, h]

theorem followers_follow_of_not (db : DB) (a b : Nat)
    (h : is_following db a b = false) :
    (follow db a b).followers = db.followers ++ [⟨a, b⟩] := by
  simp [follow, h]

theorem isFollowing_decide (db : DB) (a b : Nat) :
    is_following db a b = decide (0 < edge_count db a b) := rfl

theorem edge_count_zero_of_not (db : DB) (a b : Nat)
    (h : is_following db a b = false) : edge_count db a b = 0 := by
  rw [isFollowing_decide] at h
  have := of_decide_eq_false h
  omega

theorem edgePred_false_of_ne (e : FollowEdge) (a b c d : Nat)
    (hc : e.follower_id = c) (hd : e.followed_id = d)
    (hne : ¬(c = a ∧ d = b)) :
    (e.follower_id == a && e.followed_id == b) = false := by
  subst hc; subst hd
  rcases not_and_or.mp hne with h | h
  · simp [beq_eq_false_iff_ne.mpr h]
  · simp [beq_eq_false_iff_ne.mpr h]

/-- C6: after follow(a,b), is_following(a,b) holds and followed_by(a)
contains b and followers_of(b) contains a; after a subsequent unfollow(a,b)
all three properties invert; follow is idempotent (the second call is a
no-op), and starting from a state without the edge, two follow(a,b) calls
leave exactly one association row for (a,b). -/
theorem C6_follow_unfollow_roundtrip (db : DB) (a b : Nat) :
    is_following (follow db a b) a b = true ∧
    b ∈ followed_by (follow db a b) a ∧
    a ∈ followers_of (follow db a b) b ∧
    is_following (unfollow (follow db a b) a b) a b = false ∧
    b ∉ followed_by (unfollow (follow db a b) a b) a ∧
    a ∉ followers_of (unfollow (follow db a b) a b) b ∧
    follow (follow db a b) a b = follow db a b ∧
    (is_following db a b = false →
      edge_count (follow (follow db a b) a b) a b = 1) := by
  have h1 := isFollowing_follow db a b
  obtain ⟨e, he, hef, hed⟩ := (isFollowing_iff _ a b).mp h1
  have hunf := isFollowing_unfollow (follow db a b) a b h1
  have hidem := follow_of_isFollowing (follow db a b) a b h1
  refine ⟨h1, ?_, ?_, ?_, ?_, ?_, hidem, ?_⟩
  · exact (mem_followed_by _ a b).mpr ⟨e, he, hef, hed⟩
  · exact (mem_followers_of _ b a).mpr ⟨e, he, hef, hed⟩
  · rw [Bool.eq_false_iff]
    intro hcon
    obtain ⟨e2, he2, h2f, h2d⟩ := (isFollowing_iff _ a b).mp hcon
    rw [hunf] at he2
    have hm := (List.mem_filter.mp he2).2
    simp [h2f, h2d] at hm
  · intro hcon
    obtain ⟨e2, he2, h2f, h2d⟩ := (mem_followed_by _ a b).mp hcon
    rw [hunf] at he2
    have hm := (List.mem_filter.mp he2).2
    simp [h2f, h2d] at hm
  · intro hcon
    obtain ⟨e2, he2, h2f, h2d⟩ := (mem_followers_of _ b a).mp hcon
    rw [hunf] at he2
    have hm := (List.mem_filter.mp he2).2
    simp [h2f, h2d] at hm
  · intro h0
    rw [hidem]
    have hz := edge_count_zero_of_not db a b h0
    unfold edge_count at hz ⊢
    rw [followers_follow_of_not db a b h0, List.filter_append,
      List.length_append, hz]
    simp

/-- C6 witness: on the concrete two-user database without edges, two
follow(1,2) calls leave exactly one association row for (1,2). -/
theorem C6_witness : edge_count (follow (follow wDB 1 2) 1 2) 1 2 = 1 :=
  (C6_follow_unfollow_roundtrip wDB 1 2).2.2.2.2.2.2.2 (by decide)

/-- C7: the data layer does not forbid a self-edge: follow(a,a) inserts it
(or keeps it), after which is_following(a,a) is true, for every database
state and every identity a. -/
theorem C7_self_follow_allowed (db : DB) (a : Nat) :
    is_following (follow db a a) a a = true :=
  isFollowing_follow db a a

/-- C9: follow(a,b) and unfollow(a,b) mutate only the followers association
table: the user table and the post table are unchanged, and is_following(c,d)
is unchanged for every ordered pair (c,d) different from (a,b). -/
theorem C9_follow_unfollow_frame (db : DB) (a b c d : Nat) :
    (follow db a b).users = db.users ∧ (follow db a b).posts = db.posts ∧
    (unfollow db a b).users = db.users ∧ (unfollow db a b).posts = db.posts ∧
    (¬(c = a ∧ d = b) →
      is_following (follow db a b) c d = is_following db c d ∧
      is_following (unfollow db a b) c d = is_following db c d) := by
  refine ⟨?_, ?_, ?_, ?_, ?_⟩
  · unfold follow; split <;> rfl
  · unfold follow; split <;> rfl
  · unfold unfollow; split <;> rfl
  · unfold unfollow; split <;> rfl
  · intro hne
    constructor
    · rcases followers_follow db a b with h | h
      · unfold is_following
        rw [h]
      · unfold is_following
        rw [h, List.filter_append]
        have hab : ((⟨a, b⟩ : FollowEdge).follower_id == c &&
            (⟨a, b⟩ : FollowEdge).followed_id == d) = false := by
          rcases not_and_or.mp hne with h' | h'
          · simp [beq_eq_false_iff_ne.mpr (fun hh => h' hh.symm)]
          · simp [beq_eq_false_iff_ne.mpr (fun hh => h' hh.symm)]
        simp [hab]
    · unfold unfollow
      split
      · unfold is_following
        simp only []
        rw [List.filter_filter]
        have hl : List.filter
            (fun e => (e.follower_id == c && e.followed_id == d) &&
              !(e.follower_id == a && e.followed_id == b)) db.followers =
            List.filter (fun e => e.follower_id == c && e.followed_id == d)
              db.followers := by
          apply List.filter_congr
          intro e _
          cases hcd : (e.follower_id == c && e.followed_id == d) with
          | false => simp [hcd]
          | true =>
            have hcd2 := hcd
            simp only [Bool.and_eq_true, beq_iff_eq] at hcd2
            rw [edgePred_false_of_ne e a b c d hcd2.1 hcd2.2 hne]
            simp [hcd]
        rw [hl]
      · rfl

/-- C9 witness: on the concrete two-user database, follow(1,2) and
unfollow(1,2) leave is_following(2,1) unchanged. -/
theorem C9_witness :
    is_following (follow wDB 1 2) 2 1 = is_following wDB 2 1 ∧
    is_following (unfollow wDB 1 2) 2 1 = is_following wDB 2 1 :=
  (C9_follow_unfollow_frame wDB 1 2 2 1).2.2.2.2 (by decide)

/-- C5: set_password followed by check_password with the same plaintext
returns true, and check_password with any different plaintext returns false
(an ok result, not an exception), for every password string. -/
theorem C5_password_roundtrip (u : User) (salt : Nat) (pw pw' : String) :
    check_password (set_password u salt pw) pw = Except.ok true ∧
    (pw' ≠ pw →
      check_password (set_password u salt pw) pw' = Except.ok false) := by
  constructor
  · simp [check_password, set_password, check_password_hash,
      generate_password_hash]
  · intro hne
    have hne2 : pw ≠ pw' := fun h => hne h.symm
    simp [check_password, set_password, check_password_hash,
      generate_password_hash, HashDigest.mk.injEq, hne2]

/-- C5 witness: on a concrete user, setting a Unicode password and checking
a different plaintext yields an ok false. -/
theorem C5_witness :
    check_password (set_password uFresh 7 "päss wörd") "wrong" =
      Except.ok false :=
  (C5_password_roundtrip uFresh 7 "päss wörd" "wrong").2 (by decide)

/-- C10: on a user whose password hash was never set, check_password fails
with an error (the AttributeError raised inside check_password_hash on the
stored None) rather than returning false. -/
theorem C10_check_password_unset_errors (u : User) (pw : String)
    (h : u.password_hash = none) :
    check_password u pw =
      Except.error ("AttributeError: NoneType object has no attribute") := by
  simp [check_password, h, check_password_hash]

/-- C10 witness: on the concrete user with no stored hash, check_password
returns the error. -/
theorem C10_witness :
    check_password uFresh "anything" =
      Except.error ("AttributeError: NoneType object has no attribute") :=
  C10_check_password_unset_errors uFresh "anything" rfl

/-- C8 counterexample: two identities whose emails differ only in a leading
space receive different avatar identifiers at the same size, because the
source lower-cases but never trims the email. -/
theorem C8_counterexample : avatar uSpace 64 ≠ avatar uNoSpace 64 := by
  decide

/-- C8 amended: avatar is a pure deterministic function of the lower-cased
(but not trimmed) email and the size: any two identities whose emails agree
after lower-casing receive the same identifier for the same size,
independently of every other field. -/
theorem C8_avatar_deterministic (u v : User) (size : Nat)
    (h : pyLower u.email = pyLower v.email) :
    avatar u size = avatar v size := by
  simp [avatar, md5_hexdigest, h]

/-- C8 witness: two concrete identities whose emails differ only in letter
case receive the same avatar identifier. -/
theorem C8_witness : avatar uNoSpace 64 = avatar uUpper 64 :=
  C8_avatar_deterministic uNoSpace uUpper 64 (by decide)

/-- C4: verify_reset_password_token returns a user u iff the token is signed
under the process key with subject u.id, the current time is before the
embedded expiry, and the primary-key lookup of u.id still finds u; in every
other case (malformed or forged token, expired token, ttl 0, deleted
identity) it returns none, and the embedding is a total function, so no
exception reaches the caller. -/
theorem C4_verify_reset_token (db : DB) (t : Token) (key : String)
    (now : Nat) (u : User) :
    verify_reset_password_token db t key now = some u ↔
      ∃ exp, t = Token.signed u.id exp key ∧ now < exp ∧
        getUser db u.id = some u := by
  constructor
  · intro h
    cases t with
    | malformed s =>
      simp [verify_reset_password_token, jwt_decode] at h
    | signed rp exp k =>
      by_cases hc : k = key ∧ now < exp
      · have h2 : verify_reset_password_token db (Token.signed rp exp k)
            key now = getUser db rp := by
          simp [verify_reset_password_token, jwt_decode, hc]
        rw [h2] at h
        have hid : u.id = rp := by
          unfold getUser at h
          simpa using List.find?_some h
        refine ⟨exp, ?_, hc.2, ?_⟩
        · rw [hc.1, hid]
        · rw [hid]; exact h
      · have h2 : verify_reset_password_token db (Token.signed rp exp k)
            key now = none := by
          simp [verify_reset_password_token, jwt_decode, hc]
        rw [h2] at h
        cases h
  · rintro ⟨exp, rfl, hlt, hget⟩
    have h2 : verify_reset_password_token db (Token.signed u.id exp key)
        key now = getUser db u.id := by
      simp [verify_reset_password_token, jwt_decode, hlt]
    rw [h2]
    exact hget

theorem mem_followedPostsJoin (db : DB) (selfId : Nat) (p : Post) :
    p ∈ followedPostsJoin db selfId ↔
      p ∈ db.posts ∧ is_following db selfId p.user_id = true := by
  unfold followedPostsJoin
  rw [List.mem_flatMap]
  constructor
  · rintro ⟨q, hq, hpq⟩
    rw [List.mem_map] at hpq
    obtain ⟨e, hef, heq⟩ := hpq
    have hqp : q = p := heq
    subst hqp
    have hm := List.mem_filter.mp hef
    have hm2 := hm.2
    simp only [Bool.and_eq_true, beq_iff_eq] at hm2
    exact ⟨hq, (isFollowing_iff db selfId q.user_id).mpr
      ⟨e, hm.1, hm2.2, hm2.1⟩⟩
  · rintro ⟨hp, hf⟩
    obtain ⟨e, he, h1, h2⟩ := (isFollowing_iff db selfId p.user_id).mp hf
    exact ⟨p, hp, List.mem_map.mpr
      ⟨e, List.mem_filter.mpr ⟨he, by simp [h1, h2]⟩, rfl⟩⟩

theorem mem_my_posts (db : DB) (selfId : Nat) (p : Post) :
    p ∈ my_posts db selfId ↔ p ∈ db.posts ∧ p.user_id = selfId := by
  simp [my_posts, List.mem_filter]

/-- C1: the feed of an identity contains a post iff its author is the
identity itself or an identity it follows, and every post of the feed
appears exactly once — in particular no double-counting when the identity
authored a post and also follows itself, because the SQL UNION removes
duplicate rows. -/
theorem C1_feed_membership_no_dup (db : DB) (uid : Nat) (p : Post) :
    (p ∈ followed_posts db uid ↔
      p ∈ db.posts ∧
        (is_following db uid p.user_id = true ∨ p.user_id = uid)) ∧
    (p ∈ followed_posts db uid → (followed_posts db uid).count p = 1) := by
  have hperm : (followed_posts db uid).Perm
      (sqlUnion (followedPostsJoin db uid) (my_posts db uid)) :=
    List.perm_insertionSort postGe _
  have hmem : p ∈ followed_posts db uid ↔
      p ∈ followedPostsJoin db uid ∨ p ∈ my_posts db uid := by
    rw [hperm.mem_iff]
    unfold sqlUnion
    rw [List.mem_dedup, List.mem_append]
  constructor
  · rw [hmem, mem_followedPostsJoin, mem_my_posts]
    constructor
    · rintro (⟨h1, h2⟩ | ⟨h1, h2⟩)
      exacts [⟨h1, Or.inl h2⟩, ⟨h1, Or.inr h2⟩]
    · rintro ⟨h1, h2 | h2⟩
      exacts [Or.inl ⟨h1, h2⟩, Or.inr ⟨h1, h2⟩]
  · intro hp
    rw [hperm.count_eq]
    unfold sqlUnion
    rw [List.count_dedup]
    have hin : p ∈ followedPostsJoin db uid ++ my_posts db uid := by
      rw [List.mem_append]
      exact hmem.mp hp
    simp [hin]

/-- C1 witness: in the concrete database selfDB, user 1 follows themself and
authored the post, which is reached both through the join and through the
own-posts query, yet appears exactly once in the feed. -/
theorem C1_witness : (followed_posts selfDB 1).count ⟨1, "mine", 7, 1⟩ = 1 :=
  (C1_feed_membership_no_dup selfDB 1 ⟨1, "mine", 7, 1⟩).2 (by decide)

/-- C2 counterexample: in the concrete database tieDB, user 1 authored the
posts with ids 1 and 2 at the same timestamp; the feed returns them with
id 1 before id 2, so the output is not ordered by descending post id at
equal timestamps, contradicting the claimed tie-break. -/
theorem C2_counterexample :
    ¬ List.Pairwise specTieOrder (followed_posts tieDB 1) := by
  decide

/-- C2 amended: the feed and the per-author post listing are sorted by
descending creation timestamp only; the source applies no id tie-break, so
the relative order of posts with equal timestamps is just the stable order
of the underlying rows, not descending id. -/
theorem C2_feed_sorted_desc_timestamp (db : DB) (uid aid : Nat) :
    List.Sorted postGe (followed_posts db uid) ∧
    List.Sorted postGe (posts_by db aid) :=
  ⟨List.sorted_insertionSort postGe _, List.sorted_insertionSort postGe _⟩

theorem paginate_per_page_pos (q : List Post) (page per_page : Int) :
    1 ≤ (paginate q page per_page).per_page := by
  show 1 ≤ (if per_page < 1 then 20 else per_page.toNat)
  split
  · omega
  · omega

theorem paginate_page_pos (q : List Post) (page per_page : Int) :
    1 ≤ (paginate q page per_page).page := by
  show 1 ≤ (if page < 1 then 1 else page.toNat)
  split
  · omega
  · omega

theorem pages_bound (total pp p : Nat) (hpp : 1 ≤ pp)
    (h : total ≤ (p - 1) * pp) :
    (if total = 0 then 0 else (total + pp - 1) / pp) ≤ p - 1 := by
  split
  · omega
  · rw [Nat.div_le_iff_le_mul_add_pred hpp]
    have h2 : total ≤ pp * (p - 1) := by rw [Nat.mul_comm]; exact h
    generalize pp * (p - 1) = k at h2 ⊢
    omega

theorem paginate_beyond (q : List Post) (page per_page : Int)
    (h : (paginate q page per_page).total ≤
      ((paginate q page per_page).page - 1) *
        (paginate q page per_page).per_page) :
    (paginate q page per_page).items = [] ∧
    (paginate q page per_page).has_next = false := by
  have hpp := paginate_per_page_pos q page per_page
  have hpage := paginate_page_pos q page per_page
  constructor
  · show ((q.drop (((paginate q page per_page).page - 1) *
      (paginate q page per_page).per_page)).take
        (paginate q page per_page).per_page) = []
    have hlen : q.length ≤ ((paginate q page per_page).page - 1) *
        (paginate q page per_page).per_page := h
    rw [List.drop_eq_nil_of_le hlen]
    exact List.take_nil
  · have hb := pages_bound (paginate q page per_page).total
      (paginate q page per_page).per_page (paginate q page per_page).page
      hpp h
    unfold Paginated.has_next
    rw [decide_eq_false_iff_not]
    unfold Paginated.pages
    omega

/-- C3 (amended): feed pagination never errors. Whenever the requested
window starts at or past the end of the candidate rows (a page beyond the
last page), the items are empty and has_next is false; has_prev is true
exactly when the effective page is beyond 1; a requested page of at least 1
is used as is; but a requested page below 1 is NOT an empty page: paginate
with error_out False replaces it by page 1, so page 0 returns the first
page. -/
theorem C3_feed_pagination_total (db : DB) (uid : Nat)
    (page per_page : Int) :
    ((feed_for db uid page per_page).total ≤
        ((feed_for db uid page per_page).page - 1) *
          (feed_for db uid page per_page).per_page →
      (feed_for db uid page per_page).items = [] ∧
      (feed_for db uid page per_page).has_next = false) ∧
    ((feed_for db uid page per_page).has_prev = true ↔
      1 < (feed_for db uid page per_page).page) ∧
    (1 ≤ page → (feed_for db uid page per_page).page = page.toNat) ∧
    (page ≤ 0 → feed_for db uid page per_page = feed_for db uid 1 per_page) := by
  refine ⟨?_, ?_, ?_, ?_⟩
  · exact paginate_beyond (followed_posts db uid) page per_page
  · unfold Paginated.has_prev
    rw [decide_eq_true_eq]
  · intro h1
    show (if page < 1 then 1 else page.toNat) = page.toNat
    rw [if_neg (by omega)]
  · intro h0
    unfold feed_for paginate
    have hlt : page < 1 := by omega
    simp [hlt]

/-- C3 witness: with page_size 1 and the 3 candidate posts of pagDB, page 4
yields empty items with has_next false, and page 0 is served exactly like
page 1. -/
theorem C3_witness :
    ((feed_for pagDB 1 4 1).items = [] ∧
      (feed_for pagDB 1 4 1).has_next = false) ∧
    feed_for pagDB 1 0 1 = feed_for pagDB 1 1 1 :=
  ⟨(C3_feed_pagination_total pagDB 1 4 1).1 (by decide),
   (C3_feed_pagination_total pagDB 1 0 1).2.2.2 (by decide)⟩

/-- C3 counterexample: requesting page 0 with page_size 1 over the 3
candidate posts of pagDB does not yield an empty items sequence — the
clamping in paginate serves the first page instead, contradicting the claim
that a page number of 0 yields empty items. -/
theorem C3_counterexample : (feed_for pagDB 1 0 1).items ≠ [] := by
  decide

end Flaskapp
